import Mathlib

/-!
Verification of key behaviours of the `tadoasync` client library
(`src/tadoasync/tadoasync.py` and its model modules) against its
natural-language specification.

The Python source is shallowly embedded: dataclasses become structures,
`float` values become `ℚ`, optionality (`x | None`) becomes `Option`,
raised exceptions become an `Except` result carrying a `TadoErr` value,
and network interactions are made explicit by passing the would-be
response as a parameter and counting the outbound calls performed.
-/

namespace Tado

/-- Exceptions that the Python code can raise.  The first seven
constructors mirror the classes of `src/tadoasync/exceptions.py`
(`TadoServerError` is declared there but never raised by the code);
the last three model built-in Python exceptions that escape from
`tadoasync.py` (`KeyError` from a dict lookup, `AttributeError`,
`UnboundLocalError`/`NameError`, `aiohttp.ClientResponseError`). -/
inductive TadoErr where
  | tadoError (msg : String)
  | connectionError (msg : String)
  | authenticationError (msg : String)
  | serverError (msg : String)
  | badRequestError (msg : String)
  | forbiddenError (msg : String)
  | readingError (msg : String)
  | keyError (status : Nat)
  | attributeError (msg : String)
  | nameError (msg : String)
  | clientResponseError (status : Nat)
  deriving DecidableEq, Repr

/-- Boolean success test for an `Except` result. -/
def isOkE {ε α : Type} : Except ε α → Bool
  | Except.ok _ => true
  | Except.error _ => false

/-! ## Constants

`tadoasync.py` imports its string constants from `tadoasync.const`, a
module whose file is not part of the sources (only
`python_tado_async/const.py`, an earlier variant holding the
`CONST_MODE_*` family, is).  The `CONST_MODE_*` values below are taken
from that file; the remaining values are modelled from the spec. -/

def CONST_MODE_OFF : String := "OFF"
def CONST_MODE_SMART_SCHEDULE : String := "SMART_SCHEDULE"
def CONST_MODE_AUTO : String := "AUTO"
def CONST_MODE_COOL : String := "COOL"
def CONST_MODE_HEAT : String := "HEAT"
def CONST_MODE_DRY : String := "DRY"
def CONST_MODE_FAN : String := "FAN"

/-- Modelled from the spec: `CONST_AWAY`, the `tado_mode` value meaning
the home is away (spec §4.5 step 1: `is_away = (tado_mode == "AWAY")`);
the defining `tadoasync/const.py` is missing from the sources. -/
def CONST_AWAY : String := "AWAY"

/-- Modelled from the spec: `CONST_LINK_OFFLINE`, the link state meaning
the zone is offline (spec §4.5 step 13: `available = link != "OFFLINE"`);
the defining `tadoasync/const.py` is missing from the sources. -/
def CONST_LINK_OFFLINE : String := "OFFLINE"

/-- Modelled from the spec: `TYPE_AIR_CONDITIONING`, the setting type of
an air-conditioning zone (spec §4.5 step 7: `setting.type ==
"AIR_CONDITIONING"`); the defining `tadoasync/const.py` is missing from
the sources. -/
def TYPE_AIR_CONDITIONING : String := "AIR_CONDITIONING"

/-- Modelled from the spec: the fan-speed AUTO constant synthesized for
air-conditioning zones (spec §4.5 step 7: "synthesize AUTO when power is
ON"); the defining `tadoasync/const.py` is missing from the sources. -/
def CONST_FAN_AUTO : String := "AUTO"

/-- Modelled from the spec: the fan-speed OFF constant (spec §4.5 step
7: "OFF when power is OFF"); the defining `tadoasync/const.py` is
missing from the sources. -/
def CONST_FAN_OFF : String := "OFF"

/-- Modelled from the spec: the fan-level AUTO constant ("a different
AUTO/OFF constant pair", spec §4.5 step 7); the defining
`tadoasync/const.py` is missing from the sources. -/
def CONST_FAN_SPEED_AUTO : String := "AUTO"

/-- Modelled from the spec: the fan-level OFF constant (spec §4.5 step
7); the defining `tadoasync/const.py` is missing from the sources. -/
def CONST_FAN_SPEED_OFF : String := "OFF"

/-- Modelled from the spec: the HVAC action meaning the device is off
(spec §4.5 step 1); the defining `tadoasync/const.py` is missing from
the sources. -/
def CONST_HVAC_OFF : String := "OFF"

/-- Modelled from the spec: the HVAC action meaning the device is idle
(spec §4.5 step 6); the defining `tadoasync/const.py` is missing from
the sources. -/
def CONST_HVAC_IDLE : String := "IDLE"

/-- Modelled from the spec: the HVAC action meaning active heating (spec
§4.5 step 11); the defining `tadoasync/const.py` is missing from the
sources. -/
def CONST_HVAC_HEAT : String := "HEATING"

/-- Modelled from the spec: the HVAC action meaning active cooling, the
default of the mode-to-action lookup (spec §4.5 step 9); the defining
`tadoasync/const.py` is missing from the sources. -/
def CONST_HVAC_COOL : String := "COOLING"

/-- Modelled from the spec: the vertical-swing OFF constant (spec §4.5
step 3); the defining `tadoasync/const.py` is missing from the
sources. -/
def CONST_VERTICAL_SWING_OFF : String := "OFF"

/-- Modelled from the spec: the horizontal-swing OFF constant (spec §4.5
step 3); the defining `tadoasync/const.py` is missing from the
sources. -/
def CONST_HORIZONTAL_SWING_OFF : String := "OFF"

/-- Modelled from the spec: the capability string gating the v3
temperature-offset enrichment (spec §4.4: "inside temperature
measurement" capability); the defining `tadoasync/const.py` is missing
from the sources. -/
def INSIDE_TEMPERATURE_MEASUREMENT : String := "INSIDE_TEMPERATURE_MEASUREMENT"

/-- Modelled from the spec: the static "type to mode" lookup table used
for legacy v2 devices that expose no explicit mode (spec §4.5 step 4);
the defining `tadoasync/const.py` is missing from the sources.  The
claims under verification do not depend on the individual entries, only
on the table being a partial map on setting types. -/
def TADO_HVAC_ACTION_TO_MODES : String → Option String := fun t =>
  if t = "HEATING" then some CONST_MODE_HEAT
  else if t = TYPE_AIR_CONDITIONING then some CONST_MODE_COOL
  else if t = "HOT_WATER" then some CONST_MODE_HEAT
  else none

/-- Modelled from the spec: the "mode to action" lookup table consulted
when AC power is on, with default `CONST_HVAC_COOL` (spec §4.5 step 9);
the defining `tadoasync/const.py` is missing from the sources.  The
claims under verification do not depend on the individual entries. -/
def TADO_MODES_TO_HVAC_ACTION : String → Option String := fun m =>
  if m = CONST_MODE_HEAT then some CONST_HVAC_HEAT
  else if m = CONST_MODE_COOL then some CONST_HVAC_COOL
  else if m = CONST_MODE_DRY then some "DRYING"
  else if m = CONST_MODE_FAN then some "FAN"
  else none

/-- Modelled from the spec: the API-line discriminator (`TadoLine`, spec
§2 and the glossary: pre-X lines vs the "X" line); the defining
`tadoasync/const.py` is missing from the sources. -/
inductive TadoLine where
  | PRE_LINE_X
  | LINE_X
  deriving DecidableEq, Repr

/-! ## Error mapping: `Tado.check_request_status` (tadoasync.py 317-347)

The Python routine builds a dict keyed by the HTTP statuses 500, 401,
403 and 400 (400 mapping to `TadoBadRequestError`, overwritten by
`TadoAuthenticationError` when `login=True`) and then executes
`raise status_error_mapping[response_error.status]`.  A status absent
from the dict therefore raises the `KeyError` of the lookup itself,
which is modelled by the `keyError` constructor.  The routine always
raises, so it is embedded as a total function onto the raised value. -/

def check_request_status (status : Nat) (message : String) (login : Bool) :
    TadoErr :=
  if status = 500 then
    TadoErr.tadoError
      ("Error " ++ toString status ++ " connecting to Tado. Response body: "
        ++ message)
  else if status = 401 then
    TadoErr.authenticationError
      ("Authentication error connecting to Tado. Response body: " ++ message)
  else if status = 403 then
    TadoErr.forbiddenError
      ("Forbidden error connecting to Tado. Response body: " ++ message)
  else if status = 400 then
    if login then
      TadoErr.authenticationError
        ("Authentication error connecting to Tado. Response body: " ++ message)
    else
      TadoErr.badRequestError ("Bad request to Tado. Response body: " ++ message)
  else
    TadoErr.keyError status

/-- Kinds of the error taxonomy (spec §7), used to state mapping claims
independently of the embedded message strings. -/
inductive ErrKind where
  | connection
  | authentication
  | server
  | badRequest
  | forbidden
  | reading
  | unhandledKeyError
  | pythonError
  deriving DecidableEq, Repr

/-- Classify a raised value into the spec's kinds.  `TadoError`, the
base class, carries the "Error 500 connecting to Tado" message in
`check_request_status`, so both it and the (never raised)
`TadoServerError` count as the spec's ServerError kind. -/
def errKind : TadoErr → ErrKind
  | TadoErr.tadoError _ => ErrKind.server
  | TadoErr.serverError _ => ErrKind.server
  | TadoErr.connectionError _ => ErrKind.connection
  | TadoErr.authenticationError _ => ErrKind.authentication
  | TadoErr.badRequestError _ => ErrKind.badRequest
  | TadoErr.forbiddenError _ => ErrKind.forbidden
  | TadoErr.readingError _ => ErrKind.reading
  | TadoErr.keyError _ => ErrKind.unhandledKeyError
  | TadoErr.attributeError _ => ErrKind.pythonError
  | TadoErr.nameError _ => ErrKind.pythonError
  | TadoErr.clientResponseError _ => ErrKind.pythonError

/-! ## Token manager: `Tado._refresh_auth` (tadoasync.py 349-379) and the
gateway prelude of `Tado._request` (tadoasync.py 600-608)

Time is a rational number of seconds (`time.time()`); the token-exchange
response the server would return is a parameter, and the second
component of the result counts the outbound token-exchange calls. -/

/-- The token-holding fields of the `Tado` client
(`_access_token`, `_refresh_token`, `_token_expiry`). -/
structure AuthState where
  accessToken : Option String := none
  refreshToken : Option String := none
  tokenExpiry : Option ℚ := none
  deriving DecidableEq, Repr

/-- A successful token-endpoint response
(`access_token`, `expires_in`, `refresh_token`). -/
structure OAuthTokens where
  accessToken : String
  expiresIn : ℚ
  refreshToken : String
  deriving DecidableEq, Repr

/-- `Tado._refresh_auth`: return unchanged when
`self._token_expiry is not None and time.time() < self._token_expiry - 30`;
otherwise perform one token exchange and store
`access_token`, `time.time() + expires_in` and `refresh_token`. -/
def refresh_auth (st : AuthState) (now : ℚ) (resp : OAuthTokens) :
    AuthState × Nat :=
  match st.tokenExpiry with
  | some e =>
      if now < e - 30 then (st, 0)
      else
        ({ accessToken := some resp.accessToken
           refreshToken := some resp.refreshToken
           tokenExpiry := some (now + resp.expiresIn) }, 1)
  | none =>
      ({ accessToken := some resp.accessToken
         refreshToken := some resp.refreshToken
         tokenExpiry := some (now + resp.expiresIn) }, 1)

/-- The auth state at the moment `Tado._request` sends its HTTP call:
`_request` begins with `await self._refresh_auth()` (tadoasync.py 608)
before building the URL and the `Authorization: Bearer` header. -/
def request_auth_state (st : AuthState) (now : ℚ) (resp : OAuthTokens) :
    AuthState :=
  (refresh_auth st now resp).1

/-! ## Device-authorization flow: `Tado.login_device_flow`
(tadoasync.py 153-204) and `Tado._check_device_activation`
(tadoasync.py 206-256) -/

/-- `DeviceActivationStatus` enum (tadoasync.py 79-84). -/
inductive DeviceActivationStatus where
  | NOT_STARTED
  | PENDING
  | COMPLETED
  deriving DecidableEq, Repr

/-- A device-authorization endpoint response, as consumed by
`login_device_flow`. -/
structure DeviceAuthResponse where
  httpStatus : Nat
  contentTypeJson : Bool
  userCode : String
  verificationUri : String
  expiresIn : ℚ
  interval : ℚ
  deviceCode : String
  deriving DecidableEq, Repr

/-- `Tado.login_device_flow`: raise `TadoError` unless the activation
status is `NOT_STARTED`; otherwise POST to the device-authorization
endpoint (counted in the second component), validate content type and
status 200, record the verification URL and the absolute expiry
`now + expires_in`, and return `PENDING` together with that expiry. -/
def login_device_flow (status : DeviceActivationStatus) (now : ℚ)
    (resp : DeviceAuthResponse) :
    Except TadoErr (DeviceActivationStatus × ℚ) × Nat :=
  if status ≠ DeviceActivationStatus.NOT_STARTED then
    (Except.error (TadoErr.tadoError
      "Device activation already in progress or completed"), 0)
  else if resp.httpStatus ≥ 400 then
    -- `request.raise_for_status()` feeds `check_request_status(err, login=True)`
    (Except.error (check_request_status resp.httpStatus "" true), 1)
  else if ¬ resp.contentTypeJson then
    (Except.error (TadoErr.tadoError "Unexpected response from Tado."), 1)
  else if resp.httpStatus ≠ 200 then
    (Except.error (TadoErr.tadoError
      ("Failed to start device activation flow: " ++ toString resp.httpStatus)),
      1)
  else
    (Except.ok (DeviceActivationStatus.PENDING, now + resp.expiresIn), 1)

/-- A token-endpoint response to a device-code grant poll, as consumed
by `_check_device_activation`. -/
structure PollResponse where
  httpStatus : Nat
  errorField : Option String
  contentTypeJson : Bool
  tokens : OAuthTokens
  reason : String
  deriving DecidableEq, Repr

/-- One poll iteration, `Tado._check_device_activation`: before anything
else (in particular before the sleep and the POST to the token
endpoint), raise `TadoError "User took too long to enter key"` when
`_expires_at` is set and `now` is strictly past it.  Otherwise one POST
is performed (counted in the second component): HTTP 400 with
`error == "authorization_pending"` returns `false` (keep polling); any
other ≥ 400 status escapes as the raw `ClientResponseError` of
`raise_for_status` (the surrounding `try` only catches `TimeoutError`);
a non-JSON content type raises `TadoError`; 200 stores the tokens and
returns `true`; anything else raises `TadoError "Login failed..."`. -/
def check_device_activation (expiresAt : Option ℚ) (now : ℚ)
    (resp : PollResponse) : Except TadoErr Bool × Nat :=
  match expiresAt with
  | some e =>
      if now > e then
        (Except.error (TadoErr.tadoError "User took too long to enter key"), 0)
      else
        if resp.httpStatus = 400 ∧ resp.errorField = some "authorization_pending"
        then (Except.ok false, 1)
        else if resp.httpStatus ≥ 400 then
          (Except.error (TadoErr.clientResponseError resp.httpStatus), 1)
        else if ¬ resp.contentTypeJson then
          (Except.error (TadoErr.tadoError "Unexpected response from Tado."), 1)
        else if resp.httpStatus = 200 then (Except.ok true, 1)
        else
          (Except.error (TadoErr.tadoError
            ("Login failed. Reason: " ++ resp.reason)), 1)
  | none =>
      if resp.httpStatus = 400 ∧ resp.errorField = some "authorization_pending"
      then (Except.ok false, 1)
      else if resp.httpStatus ≥ 400 then
        (Except.error (TadoErr.clientResponseError resp.httpStatus), 1)
      else if ¬ resp.contentTypeJson then
        (Except.error (TadoErr.tadoError "Unexpected response from Tado."), 1)
      else if resp.httpStatus = 200 then (Except.ok true, 1)
      else
        (Except.error (TadoErr.tadoError
          ("Login failed. Reason: " ++ resp.reason)), 1)

/-! ## Zone-state data model (`src/tadoasync/models.py`)

Dataclasses become structures; `float` becomes `ℚ`; `x | None` becomes
`Option`.  Field names keep the canonical (snake-case derived) names of
the source, camel-cased only to form valid Lean projections. -/

/-- `Precision` (models.py 184-189). -/
structure Precision where
  celsius : ℚ
  fahrenheit : ℚ
  deriving DecidableEq, Repr

/-- `InsideTemperature` (models.py 192-200). -/
structure InsideTemperature where
  celsius : ℚ
  fahrenheit : ℚ
  precision : Precision
  type : Option String := none
  timestamp : Option String := none
  deriving DecidableEq, Repr

/-- `Temperature` (models.py 203-210). -/
structure Temperature where
  celsius : ℚ
  fahrenheit : ℚ
  type : Option String := none
  timestamp : Option String := none
  deriving DecidableEq, Repr

/-- `Humidity` (models.py 374-380). -/
structure Humidity where
  type : String
  percentage : ℚ
  timestamp : String
  deriving DecidableEq, Repr

/-- `SensorDataPoints` (models.py 383-390). -/
structure SensorDataPoints where
  insideTemperature : InsideTemperature
  humidity : Humidity
  deriving DecidableEq, Repr

/-- The wire field `ZoneState.sensor_data_points` is annotated
`SensorDataPoints | dict[Any, Any]` with `default_factory=dict`
(models.py 411-413): a payload without a parsable `sensorDataPoints`
object leaves the field holding the empty dict `{}`, never `None`. -/
inductive SensorOrDict where
  | sensor (s : SensorDataPoints)
  | emptyDict
  deriving DecidableEq, Repr

/-- `Setting` (models.py 291-311). -/
structure Setting where
  type : String
  power : String
  mode : Option String := none
  temperature : Option Temperature := none
  fanSpeed : Option String := none
  fanLevel : Option String := none
  swing : Option String := none
  verticalSwing : Option String := none
  horizontalSwing : Option String := none
  deriving DecidableEq, Repr

/-- `Termination` (models.py 326-336). -/
structure Termination where
  type : String
  typeSkillBasedApp : Option String := none
  projectedExpiry : Option String := none
  deriving DecidableEq, Repr

/-- `Overlay` (models.py 314-323). -/
structure Overlay where
  type : String
  setting : Setting
  termination : Option Termination := none
  projectedExpiry : Option String := none
  deriving DecidableEq, Repr

/-- `NextScheduleChange` (models.py 339-344). -/
structure NextScheduleChange where
  start : String
  setting : Setting
  deriving DecidableEq, Repr

/-- `Link` (models.py 347-351): a record holding the link state string,
not a bare string. -/
structure Link where
  state : String
  deriving DecidableEq, Repr

/-- `HeatingPower` (models.py 354-362). -/
structure HeatingPower where
  type : String
  percentage : ℚ
  timestamp : String
  value : Option String := none
  deriving DecidableEq, Repr

/-- `AcPower` (models.py 365-371). -/
structure AcPower where
  type : String
  timestamp : String
  value : String
  deriving DecidableEq, Repr

/-- `OpenWindow` (models.py 467-476). -/
structure OpenWindow where
  detectedTime : String
  durationInSeconds : Int
  expiry : String
  remainingTimeInSeconds : Int
  deriving DecidableEq, Repr

/-- `TerminationCondition` (models.py 479-486). -/
structure TerminationCondition where
  type : Option String := none
  durationInSeconds : Option Int := none
  deriving DecidableEq, Repr

/-- `ActivityDataPoints` (models.py 489-498). -/
structure ActivityDataPoints where
  acPower : Option AcPower := none
  heatingPower : Option HeatingPower := none
  deriving DecidableEq, Repr

/-- `ZoneState` (models.py 393-464): the raw wire fields followed by the
derived fields written by the normalizer, with the source's defaults. -/
structure ZoneState where
  setting : Setting
  link : Link
  activityDataPoints : ActivityDataPoints
  tadoMode : String
  geolocationOverride : Bool
  overlayType : String
  nextTimeBlock : List (String × String)
  sensorDataPoints : SensorOrDict := SensorOrDict.emptyDict
  overlay : Option Overlay := none
  geolocationOverrideDisableTime : Option String := none
  openWindow : Option OpenWindow := none
  nextScheduleChange : Option NextScheduleChange := none
  terminationCondition : Option TerminationCondition := none
  currentTemp : Option ℚ := none
  currentTempTimestamp : Option String := none
  currentHumidity : Option ℚ := none
  currentHumidityTimestamp : Option String := none
  targetTemp : Option ℚ := none
  precision : Option ℚ := none
  currentHvacAction : Option String := none
  currentHvacMode : Option String := none
  currentFanSpeed : Option String := none
  currentFanLevel : Option String := none
  currentSwingMode : Option String := none
  currentVerticalSwingMode : Option String := none
  currentHorizontalSwingMode : Option String := none
  connection : Option String := none
  available : Bool := false
  power : Option String := none
  acPower : Option String := none
  heatingPower : Option String := none
  acPowerTimestamp : Option String := none
  heatingPowerTimestamp : Option String := none
  heatingPowerPercentage : Option ℚ := none
  overlayActive : Option Bool := none
  overlayTerminationType : Option String := none
  overlayTerminationTimestamp : Option String := none
  defaultOverlayTerminationType : Option String := none
  defaultOverlayTerminationDuration : Option Int := none
  preparation : Option Bool := none
  openWindowDetected : Option Bool := none
  openWindowAttr : Option OpenWindow := none
  isAway : Bool := false
  deriving DecidableEq, Repr

/-! ## The zone-state normalizer: `Tado.update_zone_data`
(tadoasync.py 649-800)

The Python method mutates the `ZoneState` in place and can raise; it is
embedded as `Except TadoErr ZoneState`, split into step functions that
follow the source's statement order.  Python attribute-presence quirks
are translated by their actual runtime meaning:

* `hasattr(data.setting, "temperature")`, `hasattr(data.setting,
  "fan_level")`, `hasattr(data, "preparation")`,
  `hasattr(data.activity_data_points.heating_power, "percentage")`,
  `hasattr(data.overlay.termination, "projected_expiry")` and
  `hasattr(data, "termination_condition")` test dataclass fields that
  always exist, hence are always `True`;
* `hasattr(data, "connection_state")` tests a field `ZoneState` does not
  declare, hence is always `False`;
* the local variable `setting` (line 673) is bound only when
  `data.setting.temperature` is present; line 707 reads it again, so
  when it is unbound Python raises `UnboundLocalError`, and when it is
  bound it holds a `float`, which has no `fan_speed` attribute. -/

/-- Lines 651-666: extract temperature, precision and humidity from the
sensor data points, set `is_away` and start `current_hvac_action` at
`CONST_HVAC_OFF`. -/
def stepSensor (z : ZoneState) (sdp : SensorDataPoints) : ZoneState :=
  { z with
    currentTemp := some sdp.insideTemperature.celsius
    currentTempTimestamp := sdp.insideTemperature.timestamp
    precision := some sdp.insideTemperature.precision.celsius
    currentHumidity := some sdp.humidity.percentage
    currentHumidityTimestamp := some sdp.humidity.timestamp
    isAway := z.tadoMode = CONST_AWAY
    currentHvacAction := some CONST_HVAC_OFF }

/-- Lines 668-674: when `setting.temperature` is present, bind the local
`setting` to its Celsius value and store it as `target_temp`.  The
second component is the local variable `setting` (`none` = unbound). -/
def stepTarget (z : ZoneState) : ZoneState × Option ℚ :=
  match z.setting.temperature with
  | some t => ({ z with targetTemp := some t.celsius }, some t.celsius)
  | none => (z, none)

/-- Lines 676-682: reset the derived fan/mode/swing fields. -/
def stepInitDefaults (z : ZoneState) : ZoneState :=
  { z with
    currentFanSpeed := none
    currentFanLevel := none
    currentHvacMode := some CONST_MODE_OFF
    currentSwingMode := some CONST_MODE_OFF
    currentVerticalSwingMode := some CONST_VERTICAL_SWING_OFF
    currentHorizontalSwingMode := some CONST_HORIZONTAL_SWING_OFF }

/-- Lines 684-686: v3 devices expose an explicit mode. -/
def stepMode (z : ZoneState) : ZoneState :=
  if z.setting.mode.isSome then { z with currentHvacMode := z.setting.mode }
  else z

/-- Lines 688-690: copy the swing fields through verbatim. -/
def stepSwing (z : ZoneState) : ZoneState :=
  { z with
    currentSwingMode := z.setting.swing
    currentVerticalSwingMode := z.setting.verticalSwing
    currentHorizontalSwingMode := z.setting.horizontalSwing }

/-- Lines 692-701: copy `setting.power`; when it is "ON", baseline the
action at IDLE and, for mode-less v2 devices with a truthy type found in
the type-to-mode table, derive the mode from the type. -/
def stepPower (z : ZoneState) : ZoneState :=
  let z := { z with power := some z.setting.power }
  if z.power = some "ON" then
    let z := { z with currentHvacAction := some CONST_HVAC_IDLE }
    if z.setting.mode = none ∧ z.setting.type ≠ "" ∧
        (TADO_HVAC_ACTION_TO_MODES z.setting.type).isSome then
      { z with currentHvacMode := TADO_HVAC_ACTION_TO_MODES z.setting.type }
    else z
  else z

/-- Lines 703-717: the fan-speed rule.  When `setting.fan_speed` is
present the source evaluates `data.setting.fan_speed if hasattr(setting,
"fan_speed") else (CONST_FAN_AUTO if power == "ON" else CONST_FAN_OFF)`
against the *local* `setting` (the float of line 673): if that local is
unbound Python raises `UnboundLocalError`, and otherwise
`hasattr(<float>, "fan_speed")` is `False`, so the AUTO/OFF arm is
taken and the raw fan speed is never copied.  When `fan_speed` is absent
and the type is air conditioning, AUTO/OFF is synthesized likewise. -/
def stepFan (z : ZoneState) (settingLocal : Option ℚ) :
    Except TadoErr ZoneState :=
  if z.setting.fanSpeed.isSome then
    match settingLocal with
    | none =>
        Except.error (TadoErr.nameError
          "cannot access local variable 'setting' where it is not associated with a value")
    | some _ =>
        let fs := if z.power = some "ON" then CONST_FAN_AUTO else CONST_FAN_OFF
        Except.ok { z with currentFanSpeed := some fs }
  else if z.setting.type = TYPE_AIR_CONDITIONING then
    let fs := if z.power = some "ON" then CONST_FAN_AUTO else CONST_FAN_OFF
    Except.ok { z with currentFanSpeed := some fs }
  else Except.ok z

/-- Lines 719-725: `hasattr(data.setting, "fan_level")` is always true,
so the raw fan level is copied through (possibly `None`). -/
def stepFanLevel (z : ZoneState) : ZoneState :=
  { z with currentFanLevel := z.setting.fanLevel }

/-- Lines 727-732: presence flags, true iff the raw field is non-null. -/
def stepPresenceFlags (z : ZoneState) : ZoneState :=
  { z with
    preparation := some z.preparation.isSome
    openWindowDetected := some z.openWindowDetected.isSome }

/-- Lines 736-737: a truthy `open_window` is copied to
`open_window_attr`. -/
def stepOpenWindow (z : ZoneState) : ZoneState :=
  if z.openWindow.isSome then { z with openWindowAttr := z.openWindow } else z

/-- Lines 739-746: AC power.  `dict.get(key, CONST_HVAC_COOL)` on the
mode-to-action table, keyed by the current HVAC mode. -/
def stepAcPower (z : ZoneState) : ZoneState :=
  match z.activityDataPoints.acPower with
  | some ap =>
      let z := { z with
        acPower := some ap.value
        acPowerTimestamp := some ap.timestamp }
      if ap.value = "ON" ∧ z.power = some "ON" then
        let act := match z.currentHvacMode with
          | some m => (TADO_MODES_TO_HVAC_ACTION m).getD CONST_HVAC_COOL
          | none => CONST_HVAC_COOL
        { z with currentHvacAction := some act }
      else z
  | none => z

/-- Line 749: `overlay_active = current_hvac_mode != SMART_SCHEDULE`. -/
def stepOverlayActive (z : ZoneState) : ZoneState :=
  { z with overlayActive := some (decide (z.currentHvacMode ≠ some CONST_MODE_SMART_SCHEDULE)) }

/-- Lines 751-769: heating power.  The guard makes `heating_power`
truthy, so its value/timestamp are copied; `hasattr(..., "percentage")`
is always true, so the percentage is copied; a positive percentage with
power "ON" forces the action to `CONST_HVAC_HEAT`. -/
def stepHeatingPower (z : ZoneState) : ZoneState :=
  match z.activityDataPoints.heatingPower with
  | some hp =>
      let z := { z with
        heatingPower := hp.value
        heatingPowerTimestamp := some hp.timestamp
        heatingPowerPercentage := some hp.percentage }
      if hp.percentage > 0 ∧ z.power = some "ON" then
        { z with currentHvacAction := some CONST_HVAC_HEAT }
      else z
  | none => z

/-- Lines 771-782: with an overlay, copy its termination type and
projected expiry; with no overlay at all, force
`current_hvac_mode = SMART_SCHEDULE` and `overlay_active = False`. -/
def stepOverlay (z : ZoneState) : ZoneState :=
  match z.overlay with
  | some ov =>
      match ov.termination with
      | some t =>
          { z with
            overlayTerminationType := some t.type
            overlayTerminationTimestamp := t.projectedExpiry }
      | none => z
  | none =>
      { z with
        currentHvacMode := some CONST_MODE_SMART_SCHEDULE
        overlayActive := some false }

/-- Lines 784-788: `hasattr(data, "connection_state")` is `False`
(`ZoneState` declares no such field), so `connection` is always
`None`. -/
def stepConnection (z : ZoneState) : ZoneState :=
  { z with connection := none }

/-- Python's `data.link != CONST_LINK_OFFLINE` (line 789) compares a
`Link` dataclass instance with a string: a dataclass `__eq__` returns
`NotImplemented` for a non-dataclass operand, so the values are never
equal and the inequality is `True` for every link value, whatever
`link.state` holds. -/
def pyNeLinkString (_l : Link) (_s : String) : Bool := true

/-- Line 789: `available = link != CONST_LINK_OFFLINE`. -/
def stepAvailable (z : ZoneState) : ZoneState :=
  { z with available := pyNeLinkString z.link CONST_LINK_OFFLINE }

/-- Lines 791-800: default overlay termination policy.  `tc.type or
None` maps a falsy (empty) string to `None`; `getattr(tc,
"duration_in_seconds", None)` reads an existing field. -/
def stepTerminationCondition (z : ZoneState) : ZoneState :=
  match z.terminationCondition with
  | some tc =>
      { z with
        defaultOverlayTerminationType :=
          match tc.type with
          | some s => if s = "" then none else some s
          | none => none
        defaultOverlayTerminationDuration := tc.durationInSeconds }
  | none => z

/-- The statements after the fan-speed rule (lines 719-800), which can
no longer raise. -/
def normTail (z : ZoneState) : ZoneState :=
  stepTerminationCondition (stepAvailable (stepConnection (stepOverlay
    (stepHeatingPower (stepOverlayActive (stepAcPower (stepOpenWindow
      (stepPresenceFlags (stepFanLevel z)))))))))

/-- `Tado.update_zone_data` (tadoasync.py 649-800).  The opening guard
`if data.sensor_data_points is not None:` is satisfied by both possible
field values (a parsed `SensorDataPoints` or the `{}` default — neither
is `None`), so the branch body always runs: with the empty dict,
`data.sensor_data_points.inside_temperature` raises `AttributeError`. -/
def update_zone_data (z0 : ZoneState) : Except TadoErr ZoneState :=
  match z0.sensorDataPoints with
  | SensorOrDict.emptyDict =>
      Except.error (TadoErr.attributeError
        "'dict' object has no attribute 'inside_temperature'")
  | SensorOrDict.sensor sdp =>
      let z := stepSensor z0 sdp
      let zs := stepTarget z
      let z := stepPower (stepSwing (stepMode (stepInitDefaults zs.1)))
      match stepFan z zs.2 with
      | Except.error e => Except.error e
      | Except.ok z => Except.ok (normTail z)

/-! ## Devices and cross-line unification
(`src/tadoasync/models.py`, `src/tadoasync/models_x.py`,
`src/tadoasync/models_unified.py`, and
`Tado.get_unified_devices`, tadoasync.py 541-575) -/

/-- `ConnectionState` (models.py 92-97). -/
structure ConnectionState where
  value : Bool
  timestamp : String
  deriving DecidableEq, Repr

/-- `Characteristics` (models.py 100-104). -/
structure Characteristics where
  capabilities : List String
  deriving DecidableEq, Repr

/-- `MountingState` (models.py 107-112). -/
structure MountingState where
  value : String
  timestamp : String
  deriving DecidableEq, Repr

/-- v3 `Device` (models.py 115-142). -/
structure DeviceV3 where
  deviceType : String
  serialNo : String
  shortSerialNo : String
  currentFwVersion : String
  connectionState : ConnectionState
  characteristics : Characteristics
  inPairingMode : Option Bool := none
  mountingState : Option MountingState := none
  mountingStateWithError : Option String := none
  batteryState : Option String := none
  orientation : Option String := none
  childLockEnabled : Option Bool := none
  deriving DecidableEq, Repr

/-- `TemperatureOffset` (models.py 283-288). -/
structure TemperatureOffset where
  celsius : ℚ
  fahrenheit : ℚ
  deriving DecidableEq, Repr

/-- X-line `Connection` (models_x.py 22-26). -/
structure ConnectionX where
  state : String
  deriving DecidableEq, Repr

/-- X-line `Device` (models_x.py 29-51). -/
structure DeviceX where
  serialNumber : String
  type : String
  firmwareVersion : String
  connection : ConnectionX
  batteryState : Option String := none
  temperatureAsMeasured : Option ℚ := none
  temperatureOffset : Option ℚ := none
  mountingState : Option String := none
  childLockEnabled : Option Bool := none
  deriving DecidableEq, Repr

/-- Unified `Device` (models_unified.py 12-26). -/
structure UnifiedDevice where
  deviceType : String
  serial : String
  firmwareVersion : String
  connectionState : Bool
  batteryState : Option String
  temperatureOffset : Option ℚ := none
  childLockEnabled : Option Bool := none
  deriving DecidableEq, Repr

/-- `Device.from_v3` (models_unified.py 28-43): the unified offset is
`offset.celsius if offset else None`; `TemperatureOffset` instances are
truthy, so a present offset always contributes its Celsius value. -/
def UnifiedDevice.from_v3 (d : DeviceV3) (offset : Option TemperatureOffset) :
    UnifiedDevice :=
  { deviceType := d.deviceType
    serial := d.serialNo
    firmwareVersion := d.currentFwVersion
    temperatureOffset := offset.map (fun o => o.celsius)
    connectionState := d.connectionState.value
    batteryState := d.batteryState
    childLockEnabled := d.childLockEnabled }

/-- `Device.from_x` (models_unified.py 45-58): the constructor call
passes no `temperature_offset`, so the unified record keeps the class
default `None` whatever `x_device.temperature_offset` holds. -/
def UnifiedDevice.from_x (d : DeviceX) : UnifiedDevice :=
  { deviceType := d.type
    serial := d.serialNumber
    firmwareVersion := d.firmwareVersion
    connectionState := d.connection.state = "CONNECTED"
    batteryState := d.batteryState
    childLockEnabled := d.childLockEnabled }

/-- Whether a raised value is an instance of the `TadoError` class
hierarchy of `src/tadoasync/exceptions.py` (the base class and its six
subclasses).  Python's `except TadoError` catches exactly these; the
built-in `KeyError`, `AttributeError`, `UnboundLocalError` and
`aiohttp.ClientResponseError` are not `TadoError` instances and pass
through such a handler. -/
def isTadoError : TadoErr → Bool
  | TadoErr.tadoError _ => true
  | TadoErr.connectionError _ => true
  | TadoErr.authenticationError _ => true
  | TadoErr.serverError _ => true
  | TadoErr.badRequestError _ => true
  | TadoErr.forbiddenError _ => true
  | TadoErr.readingError _ => true
  | TadoErr.keyError _ => false
  | TadoErr.attributeError _ => false
  | TadoErr.nameError _ => false
  | TadoErr.clientResponseError _ => false

/-- The per-device body of the v3 loop in `Tado.get_unified_devices`
(tadoasync.py 548-564): `offset` starts at `None`; only when the device
advertises `INSIDE_TEMPERATURE_MEASUREMENT` is
`api_v3.get_device_temperature_offset` called (the call is counted in
the second component).  The handler is the typed `except TadoError as
err` of line 558: a raised `TadoError` (or subclass) is logged and
swallowed, leaving `offset = None`, while any other exception — e.g.
the bare `KeyError` that `check_request_status` raises for an unmapped
HTTP status — is not caught and propagates.  The would-be outcome of
the secondary request is the `fetch` parameter. -/
def unify_v3_device (d : DeviceV3)
    (fetch : String → Except TadoErr TemperatureOffset) :
    Except TadoErr UnifiedDevice × Nat :=
  if INSIDE_TEMPERATURE_MEASUREMENT ∈ d.characteristics.capabilities then
    match fetch d.serialNo with
    | Except.ok o => (Except.ok (UnifiedDevice.from_v3 d (some o)), 1)
    | Except.error e =>
        if isTadoError e then (Except.ok (UnifiedDevice.from_v3 d none), 1)
        else (Except.error e, 1)
  else (Except.ok (UnifiedDevice.from_v3 d none), 0)

/-- The `for v3_device in devices` loop of `Tado.get_unified_devices`
(tadoasync.py 548-564): each device is unified in order and appended;
an exception escaping a loop body aborts the loop and propagates. -/
def unify_v3_loop (fetch : String → Except TadoErr TemperatureOffset) :
    List DeviceV3 → Except TadoErr (List UnifiedDevice)
  | [] => Except.ok []
  | d :: rest =>
      match (unify_v3_device d fetch).1 with
      | Except.error e => Except.error e
      | Except.ok u =>
          match unify_v3_loop fetch rest with
          | Except.error e => Except.error e
          | Except.ok us => Except.ok (u :: us)

/-- The `PRE_LINE_X` branch of `Tado.get_unified_devices`
(tadoasync.py 543-565): an empty device list raises `TadoError`;
otherwise the per-device loop runs, swallowing `TadoError` fetch
failures and propagating anything else. -/
def get_unified_devices_v3 (devices : List DeviceV3)
    (fetch : String → Except TadoErr TemperatureOffset) :
    Except TadoErr (List UnifiedDevice) :=
  if devices = [] then
    Except.error (TadoErr.tadoError "No devices found for the home")
  else
    unify_v3_loop fetch devices

/-! ## Field-tracking lemmas for the normalizer steps -/

@[simp] theorem stepSensor_setting (z : ZoneState) (sdp : SensorDataPoints) :
    (stepSensor z sdp).setting = z.setting := rfl

@[simp] theorem stepSensor_adp (z : ZoneState) (sdp : SensorDataPoints) :
    (stepSensor z sdp).activityDataPoints = z.activityDataPoints := rfl

@[simp] theorem stepSensor_overlay (z : ZoneState) (sdp : SensorDataPoints) :
    (stepSensor z sdp).overlay = z.overlay := rfl

@[simp] theorem stepSensor_power (z : ZoneState) (sdp : SensorDataPoints) :
    (stepSensor z sdp).power = z.power := rfl

@[simp] theorem stepTarget_setting (z : ZoneState) :
    (stepTarget z).1.setting = z.setting := by
  unfold stepTarget; cases z.setting.temperature <;> rfl

@[simp] theorem stepTarget_adp (z : ZoneState) :
    (stepTarget z).1.activityDataPoints = z.activityDataPoints := by
  unfold stepTarget; cases z.setting.temperature <;> rfl

@[simp] theorem stepTarget_overlay (z : ZoneState) :
    (stepTarget z).1.overlay = z.overlay := by
  unfold stepTarget; cases z.setting.temperature <;> rfl

@[simp] theorem stepTarget_power (z : ZoneState) :
    (stepTarget z).1.power = z.power := by
  unfold stepTarget; cases z.setting.temperature <;> rfl

@[simp] theorem stepInitDefaults_setting (z : ZoneState) :
    (stepInitDefaults z).setting = z.setting := rfl

@[simp] theorem stepInitDefaults_adp (z : ZoneState) :
    (stepInitDefaults z).activityDataPoints = z.activityDataPoints := rfl

@[simp] theorem stepInitDefaults_overlay (z : ZoneState) :
    (stepInitDefaults z).overlay = z.overlay := rfl

@[simp] theorem stepInitDefaults_power (z : ZoneState) :
    (stepInitDefaults z).power = z.power := rfl

@[simp] theorem stepMode_setting (z : ZoneState) :
    (stepMode z).setting = z.setting := by
  unfold stepMode; split <;> rfl

@[simp] theorem stepMode_adp (z : ZoneState) :
    (stepMode z).activityDataPoints = z.activityDataPoints := by
  unfold stepMode; split <;> rfl

@[simp] theorem stepMode_overlay (z : ZoneState) :
    (stepMode z).overlay = z.overlay := by
  unfold stepMode; split <;> rfl

@[simp] theorem stepMode_power (z : ZoneState) :
    (stepMode z).power = z.power := by
  unfold stepMode; split <;> rfl

@[simp] theorem stepSwing_setting (z : ZoneState) :
    (stepSwing z).setting = z.setting := rfl

@[simp] theorem stepSwing_adp (z : ZoneState) :
    (stepSwing z).activityDataPoints = z.activityDataPoints := rfl

@[simp] theorem stepSwing_overlay (z : ZoneState) :
    (stepSwing z).overlay = z.overlay := rfl

@[simp] theorem stepSwing_power (z : ZoneState) :
    (stepSwing z).power = z.power := rfl

@[simp] theorem stepPower_setting (z : ZoneState) :
    (stepPower z).setting = z.setting := by
  unfold stepPower; dsimp only; split <;> (try split) <;> rfl

@[simp] theorem stepPower_adp (z : ZoneState) :
    (stepPower z).activityDataPoints = z.activityDataPoints := by
  unfold stepPower; dsimp only; split <;> (try split) <;> rfl

@[simp] theorem stepPower_overlay (z : ZoneState) :
    (stepPower z).overlay = z.overlay := by
  unfold stepPower; dsimp only; split <;> (try split) <;> rfl

@[simp] theorem stepPower_power (z : ZoneState) :
    (stepPower z).power = some z.setting.power := by
  unfold stepPower; dsimp only; split <;> (try split) <;> rfl

theorem stepFan_ok_fields (z : ZoneState) (s : Option ℚ) (z' : ZoneState)
    (h : stepFan z s = Except.ok z') :
    z'.power = z.power ∧ z'.activityDataPoints = z.activityDataPoints ∧
      z'.overlay = z.overlay := by
  unfold stepFan at h
  split at h
  · cases s with
    | none => simp at h
    | some q =>
        dsimp only at h
        injection h with h
        subst h
        exact ⟨rfl, rfl, rfl⟩
  · split at h
    · injection h with h
      subst h
      exact ⟨rfl, rfl, rfl⟩
    · injection h with h
      subst h
      exact ⟨rfl, rfl, rfl⟩

@[simp] theorem stepFanLevel_power (z : ZoneState) :
    (stepFanLevel z).power = z.power := rfl

@[simp] theorem stepFanLevel_adp (z : ZoneState) :
    (stepFanLevel z).activityDataPoints = z.activityDataPoints := rfl

@[simp] theorem stepFanLevel_overlay (z : ZoneState) :
    (stepFanLevel z).overlay = z.overlay := rfl

@[simp] theorem stepPresenceFlags_power (z : ZoneState) :
    (stepPresenceFlags z).power = z.power := rfl

@[simp] theorem stepPresenceFlags_adp (z : ZoneState) :
    (stepPresenceFlags z).activityDataPoints = z.activityDataPoints := rfl

@[simp] theorem stepPresenceFlags_overlay (z : ZoneState) :
    (stepPresenceFlags z).overlay = z.overlay := rfl

@[simp] theorem stepOpenWindow_power (z : ZoneState) :
    (stepOpenWindow z).power = z.power := by
  unfold stepOpenWindow; split <;> rfl

@[simp] theorem stepOpenWindow_adp (z : ZoneState) :
    (stepOpenWindow z).activityDataPoints = z.activityDataPoints := by
  unfold stepOpenWindow; split <;> rfl

@[simp] theorem stepOpenWindow_overlay (z : ZoneState) :
    (stepOpenWindow z).overlay = z.overlay := by
  unfold stepOpenWindow; split <;> rfl

@[simp] theorem stepAcPower_power (z : ZoneState) :
    (stepAcPower z).power = z.power := by
  unfold stepAcPower
  cases z.activityDataPoints.acPower with
  | none => rfl
  | some ap => dsimp only; split <;> rfl

@[simp] theorem stepAcPower_adp (z : ZoneState) :
    (stepAcPower z).activityDataPoints = z.activityDataPoints := by
  unfold stepAcPower
  cases z.activityDataPoints.acPower with
  | none => rfl
  | some ap => dsimp only; split <;> rfl

@[simp] theorem stepAcPower_overlay (z : ZoneState) :
    (stepAcPower z).overlay = z.overlay := by
  unfold stepAcPower
  cases z.activityDataPoints.acPower with
  | none => rfl
  | some ap => dsimp only; split <;> rfl

@[simp] theorem stepOverlayActive_power (z : ZoneState) :
    (stepOverlayActive z).power = z.power := rfl

@[simp] theorem stepOverlayActive_adp (z : ZoneState) :
    (stepOverlayActive z).activityDataPoints = z.activityDataPoints := rfl

@[simp] theorem stepOverlayActive_overlay (z : ZoneState) :
    (stepOverlayActive z).overlay = z.overlay := rfl

theorem stepHeatingPower_action_heat (z : ZoneState) (hp : HeatingPower)
    (hhp : z.activityDataPoints.heatingPower = some hp)
    (hpos : 0 < hp.percentage) (hpow : z.power = some "ON") :
    (stepHeatingPower z).currentHvacAction = some CONST_HVAC_HEAT := by
  unfold stepHeatingPower
  rw [hhp]
  dsimp only
  rw [if_pos ⟨hpos, hpow⟩]

@[simp] theorem stepHeatingPower_overlay (z : ZoneState) :
    (stepHeatingPower z).overlay = z.overlay := by
  unfold stepHeatingPower
  cases z.activityDataPoints.heatingPower with
  | none => rfl
  | some hp => dsimp only; split <;> rfl

theorem stepOverlay_action (z : ZoneState) :
    (stepOverlay z).currentHvacAction = z.currentHvacAction := by
  unfold stepOverlay
  cases z.overlay with
  | none => rfl
  | some ov => dsimp only; cases ov.termination <;> rfl

theorem stepOverlay_none_mode (z : ZoneState) (h : z.overlay = none) :
    (stepOverlay z).currentHvacMode = some CONST_MODE_SMART_SCHEDULE ∧
      (stepOverlay z).overlayActive = some false := by
  unfold stepOverlay
  rw [h]
  exact ⟨rfl, rfl⟩

@[simp] theorem stepConnection_action (z : ZoneState) :
    (stepConnection z).currentHvacAction = z.currentHvacAction := rfl

@[simp] theorem stepConnection_mode (z : ZoneState) :
    (stepConnection z).currentHvacMode = z.currentHvacMode := rfl

@[simp] theorem stepConnection_overlayActive (z : ZoneState) :
    (stepConnection z).overlayActive = z.overlayActive := rfl

@[simp] theorem stepAvailable_action (z : ZoneState) :
    (stepAvailable z).currentHvacAction = z.currentHvacAction := rfl

@[simp] theorem stepAvailable_mode (z : ZoneState) :
    (stepAvailable z).currentHvacMode = z.currentHvacMode := rfl

@[simp] theorem stepAvailable_overlayActive (z : ZoneState) :
    (stepAvailable z).overlayActive = z.overlayActive := rfl

@[simp] theorem stepTerminationCondition_action (z : ZoneState) :
    (stepTerminationCondition z).currentHvacAction = z.currentHvacAction := by
  unfold stepTerminationCondition
  cases z.terminationCondition <;> rfl

@[simp] theorem stepTerminationCondition_mode (z : ZoneState) :
    (stepTerminationCondition z).currentHvacMode = z.currentHvacMode := by
  unfold stepTerminationCondition
  cases z.terminationCondition <;> rfl

@[simp] theorem stepTerminationCondition_overlayActive (z : ZoneState) :
    (stepTerminationCondition z).overlayActive = z.overlayActive := by
  unfold stepTerminationCondition
  cases z.terminationCondition <;> rfl

/-- The action derived by the normalizer tail is `HEATING` whenever the
heating-power data point has a positive percentage and power is ON. -/
theorem normTail_action_heat (z : ZoneState) (hp : HeatingPower)
    (hhp : z.activityDataPoints.heatingPower = some hp)
    (hpos : 0 < hp.percentage) (hpow : z.power = some "ON") :
    (normTail z).currentHvacAction = some CONST_HVAC_HEAT := by
  unfold normTail
  rw [stepTerminationCondition_action, stepAvailable_action,
    stepConnection_action, stepOverlay_action]
  apply stepHeatingPower_action_heat _ hp
  · simp [hhp]
  · exact hpos
  · simp [hpow]

/-- The mode and overlay flag forced by the normalizer tail when there
is no overlay. -/
theorem normTail_overlay_none (z : ZoneState) (h : z.overlay = none) :
    (normTail z).currentHvacMode = some CONST_MODE_SMART_SCHEDULE ∧
      (normTail z).overlayActive = some false := by
  unfold normTail
  have hov : (stepHeatingPower (stepOverlayActive (stepAcPower (stepOpenWindow
      (stepPresenceFlags (stepFanLevel z)))))).overlay = none := by simp [h]
  have := stepOverlay_none_mode _ hov
  rw [stepTerminationCondition_mode, stepAvailable_mode, stepConnection_mode,
    stepTerminationCondition_overlayActive, stepAvailable_overlayActive,
    stepConnection_overlayActive]
  exact this

/-! ## Concrete zone-state fixtures -/

/-- A sensor-data-points fixture with a 20 °C reading. -/
def fxSdp : SensorDataPoints :=
  { insideTemperature :=
      { celsius := 20
        fahrenheit := 68
        precision := { celsius := 1/10, fahrenheit := 1/10 }
        type := some "TEMPERATURE"
        timestamp := some "2024-01-01T00:00:00Z" }
    humidity :=
      { type := "PERCENTAGE", percentage := 45
        timestamp := "2024-01-01T00:00:00Z" } }

/-- A heating setting, powered on, with a 22 °C target. -/
def fxSettingHeat : Setting :=
  { type := "HEATING"
    power := "ON"
    temperature := some { celsius := 22, fahrenheit := 716/10 } }

/-- A zone-state fixture around a given setting: online link, home mode,
parsed sensor data, no overlay, no activity data points. -/
def baseZone (s : Setting) : ZoneState :=
  { setting := s
    link := { state := "ONLINE" }
    activityDataPoints := {}
    tadoMode := "HOME"
    geolocationOverride := false
    overlayType := "MANUAL"
    nextTimeBlock := [("start", "2024-01-01T01:00:00Z")]
    sensorDataPoints := SensorOrDict.sensor fxSdp }

/-- AC power data point reporting "ON". -/
def fxAcPowerOn : AcPower :=
  { type := "POWER", timestamp := "2024-01-01T00:00:00Z", value := "ON" }

/-- Heating power data point with a positive percentage. -/
def fxHeatingPower : HeatingPower :=
  { type := "PERCENTAGE", percentage := 85, timestamp := "2024-01-01T00:00:00Z" }

/-- Fixture for the heating-versus-AC priority claim: AC power "ON",
heating power 85 %, setting powered "ON". -/
def zoneHeatAc : ZoneState :=
  { baseZone fxSettingHeat with
    activityDataPoints :=
      { acPower := some fxAcPowerOn, heatingPower := some fxHeatingPower } }

/-- Fixture for the overlay-absence claim: no overlay, but the raw
setting echoes mode "HEAT". -/
def zoneNoOverlay : ZoneState :=
  baseZone { fxSettingHeat with type := "AIR_CONDITIONING", mode := some "HEAT" }

/-- Fixture for the fan-speed claim: fan speed "HIGH" on the wire, an
air-conditioning setting powered "ON" with a temperature present. -/
def zoneFanHigh : ZoneState :=
  baseZone
    { type := "AIR_CONDITIONING"
      power := "ON"
      mode := some "COOL"
      temperature := some { celsius := 22, fahrenheit := 716/10 }
      fanSpeed := some "HIGH" }

/-- Fixture for the availability claim: the zone's link state is
"OFFLINE". -/
def zoneOffline : ZoneState :=
  { baseZone fxSettingHeat with link := { state := "OFFLINE" } }

/-- Fixture for the missing-sensor-data claim: a payload without a
`sensorDataPoints` object leaves the mashumaro default `{}`. -/
def zoneNoSensor : ZoneState :=
  { baseZone fxSettingHeat with sensorDataPoints := SensorOrDict.emptyDict }

/-! ## Claims about the normalizer -/

/-- C1: in `update_zone_data`, for every zone state that normalizes
successfully with `activityDataPoints.acPower.value == "ON"`, a heating
power data point with positive percentage, and `setting.power == "ON"`,
the derived `current_hvac_action` is `CONST_HVAC_HEAT`: the
heating-power rule (lines 751-769) runs after and overrides the
AC-derived action (lines 739-746). -/
theorem update_zone_data_heat_priority
    (z z' : ZoneState) (ap : AcPower) (hp : HeatingPower)
    (_hac : z.activityDataPoints.acPower = some ap) (_hav : ap.value = "ON")
    (hhp : z.activityDataPoints.heatingPower = some hp)
    (hpos : 0 < hp.percentage) (hpow : z.setting.power = "ON")
    (hok : update_zone_data z = Except.ok z') :
    z'.currentHvacAction = some CONST_HVAC_HEAT := by
  unfold update_zone_data at hok
  cases hsdp : z.sensorDataPoints with
  | emptyDict => rw [hsdp] at hok; simp at hok
  | sensor sdp =>
      rw [hsdp] at hok
      dsimp only at hok
      cases hfan : stepFan (stepPower (stepSwing (stepMode (stepInitDefaults
          (stepTarget (stepSensor z sdp)).1)))) (stepTarget (stepSensor z sdp)).2 with
      | error e => rw [hfan] at hok; simp at hok
      | ok z2 =>
          rw [hfan] at hok
          dsimp only at hok
          injection hok with hok
          subst hok
          obtain ⟨hpw, hadp, _⟩ := stepFan_ok_fields _ _ _ hfan
          apply normTail_action_heat _ hp
          · rw [hadp]; simp [hhp]
          · exact hpos
          · rw [hpw]; simp [hpow]

/-- Witness for C1: the fixture with AC power "ON", heating power 85 %
and power "ON" normalizes to action `CONST_HVAC_HEAT`. -/
theorem update_zone_data_heat_priority_witness :
    (update_zone_data zoneHeatAc).map ZoneState.currentHvacAction
      = Except.ok (some CONST_HVAC_HEAT) := by
  have hsome : isOkE (update_zone_data zoneHeatAc) = true := by decide
  cases h : update_zone_data zoneHeatAc with
  | error e => rw [h] at hsome; simp [isOkE] at hsome
  | ok z' =>
      have hact := update_zone_data_heat_priority zoneHeatAc z' fxAcPowerOn
        fxHeatingPower rfl rfl rfl (by decide) rfl h
      simp [Except.map, hact]

/-- C2: in `update_zone_data`, every zone state without an overlay that
normalizes successfully ends with `current_hvac_mode = SMART_SCHEDULE`
and `overlay_active = false`, whatever `setting.mode` held (lines
780-782 override the earlier computation). -/
theorem update_zone_data_no_overlay
    (z z' : ZoneState) (hov : z.overlay = none)
    (hok : update_zone_data z = Except.ok z') :
    z'.currentHvacMode = some CONST_MODE_SMART_SCHEDULE ∧
      z'.overlayActive = some false := by
  unfold update_zone_data at hok
  cases hsdp : z.sensorDataPoints with
  | emptyDict => rw [hsdp] at hok; simp at hok
  | sensor sdp =>
      rw [hsdp] at hok
      dsimp only at hok
      cases hfan : stepFan (stepPower (stepSwing (stepMode (stepInitDefaults
          (stepTarget (stepSensor z sdp)).1)))) (stepTarget (stepSensor z sdp)).2 with
      | error e => rw [hfan] at hok; simp at hok
      | ok z2 =>
          rw [hfan] at hok
          dsimp only at hok
          injection hok with hok
          subst hok
          obtain ⟨_, _, hovp⟩ := stepFan_ok_fields _ _ _ hfan
          apply normTail_overlay_none
          rw [hovp]; simp [hov]

/-- Witness for C2: the fixture without an overlay but with raw setting
mode "HEAT" normalizes to mode SMART_SCHEDULE and inactive overlay. -/
theorem update_zone_data_no_overlay_witness :
    (update_zone_data zoneNoOverlay).map
        (fun z => (z.currentHvacMode, z.overlayActive))
      = Except.ok (some CONST_MODE_SMART_SCHEDULE, some false) := by
  have hsome : isOkE (update_zone_data zoneNoOverlay) = true := by decide
  cases h : update_zone_data zoneNoOverlay with
  | error e => rw [h] at hsome; simp [isOkE] at hsome
  | ok z' =>
      have hconc := update_zone_data_no_overlay zoneNoOverlay z' rfl h
      simp [Except.map, hconc.1, hconc.2]

/-- C3 (code bug): on a zone whose wire payload carries
`setting.fanSpeed = "HIGH"` with power "ON", `update_zone_data` derives
`current_fan_speed = CONST_FAN_AUTO` instead of copying "HIGH" through:
line 707 tests `hasattr(setting, "fan_speed")` against the local float
`setting` of line 673 instead of `data.setting`, so the verbatim-copy
arm is dead and the AUTO/OFF synthesis always runs. -/
theorem update_zone_data_fan_speed_not_copied :
    (update_zone_data zoneFanHigh).map ZoneState.currentFanSpeed
        = Except.ok (some CONST_FAN_AUTO) ∧
      zoneFanHigh.setting.fanSpeed = some "HIGH" ∧
      CONST_FAN_AUTO ≠ "HIGH" := ⟨rfl, rfl, by decide⟩

/-- C8 (code bug): on a zone whose link state is "OFFLINE",
`update_zone_data` still derives `available = true`: line 789 compares
the `Link` dataclass instance itself (not `link.state`) with the string
`CONST_LINK_OFFLINE`, and a dataclass never equals a string. -/
theorem update_zone_data_offline_still_available :
    (update_zone_data zoneOffline).map ZoneState.available = Except.ok true ∧
      zoneOffline.link.state = CONST_LINK_OFFLINE := ⟨rfl, rfl⟩

/-- C9 (code bug): on a zone state parsed from a payload without a
`sensorDataPoints` object the field holds the default `{}`, which
passes the `is not None` guard of line 651, and the extraction of line
652 raises `AttributeError` instead of being skipped. -/
theorem update_zone_data_missing_sensor_raises :
    update_zone_data zoneNoSensor
      = Except.error (TadoErr.attributeError
          "'dict' object has no attribute 'inside_temperature'") := by rfl

/-! ## Claims about the token manager, error mapping, device flow and
unified devices -/

/-- An auth state holding a token that expires at t = 1000. -/
def fxAuthState : AuthState :=
  { accessToken := some "AT", refreshToken := some "RT", tokenExpiry := some 1000 }

/-- A token-exchange response valid for 600 seconds. -/
def fxTokens : OAuthTokens :=
  { accessToken := "AT2", expiresIn := 600, refreshToken := "RT2" }

/-- C4: the refresh guard of `_refresh_auth` and the gateway prelude of
`_request`.  (a) With `now < expiry - 30` the routine performs zero
token exchanges and leaves all three token fields unchanged; (b)
otherwise it performs exactly one exchange and sets the expiry to
`now + expires_in`; (c) `_request` runs `_refresh_auth` before sending,
so whenever the exchange grants more than the 30-second margin, the
request is sent with a token whose expiry minus 30 seconds is still
ahead of `now`. -/
theorem refresh_auth_guard (st : AuthState) (now : ℚ) (resp : OAuthTokens) :
    (∀ e, st.tokenExpiry = some e → now < e - 30 →
      refresh_auth st now resp = (st, 0)) ∧
    (∀ e, st.tokenExpiry = some e → e - 30 ≤ now →
      refresh_auth st now resp =
        ({ accessToken := some resp.accessToken
           refreshToken := some resp.refreshToken
           tokenExpiry := some (now + resp.expiresIn) }, 1)) ∧
    (30 < resp.expiresIn →
      ∃ e2, (request_auth_state st now resp).tokenExpiry = some e2 ∧
        now < e2 - 30) := by
  refine ⟨?_, ?_, ?_⟩
  · intro e he hlt
    unfold refresh_auth
    rw [he]
    simp [hlt]
  · intro e he hge
    unfold refresh_auth
    rw [he]
    simp [not_lt.mpr hge]
  · intro h30
    unfold request_auth_state refresh_auth
    cases he : st.tokenExpiry with
    | none => exact ⟨now + resp.expiresIn, rfl, by linarith⟩
    | some e =>
        dsimp only
        by_cases hlt : now < e - 30
        · rw [if_pos hlt]
          exact ⟨e, he, hlt⟩
        · rw [if_neg hlt]
          exact ⟨now + resp.expiresIn, rfl, by linarith⟩

/-- Witness for C4: at t = 100 the t = 1000 token is kept with no
exchange; at t = 990 one exchange happens and the expiry becomes
990 + 600; the state sent by the gateway at t = 990 is within the
margin. -/
theorem refresh_auth_guard_witness :
    refresh_auth fxAuthState 100 fxTokens = (fxAuthState, 0) ∧
    refresh_auth fxAuthState 990 fxTokens =
      ({ accessToken := some fxTokens.accessToken
         refreshToken := some fxTokens.refreshToken
         tokenExpiry := some (990 + fxTokens.expiresIn) }, 1) ∧
    (∃ e2, (request_auth_state fxAuthState 990 fxTokens).tokenExpiry = some e2 ∧
      (990 : ℚ) < e2 - 30) := by
  obtain ⟨hcold, -, -⟩ := refresh_auth_guard fxAuthState 100 fxTokens
  obtain ⟨-, hwarm, hsent⟩ := refresh_auth_guard fxAuthState 990 fxTokens
  exact ⟨hcold 1000 rfl (by norm_num), hwarm 1000 rfl (by norm_num),
    hsent (by norm_num [fxTokens])⟩

/-- C5 counterexample: `check_request_status` on the unmapped status 404
does not produce a ServerError-kind value; the dict lookup raises a bare
`KeyError`. -/
theorem check_request_status_404_not_server :
    check_request_status 404 "Not Found" false = TadoErr.keyError 404 ∧
      errKind (check_request_status 404 "Not Found" false) ≠ ErrKind.server := by
  decide

/-- C5 (amended): `check_request_status` maps 401 to
AuthenticationError, 403 to ForbiddenError, 400 to BadRequestError
(AuthenticationError during a login/activation exchange) and 500 to the
ServerError kind (the base `TadoError`), but any other status is absent
from the mapping dict and raises `KeyError` — there is no ServerError
catch-all. -/
theorem check_request_status_mapping (status : Nat) (message : String)
    (login : Bool) :
    errKind (check_request_status status message login) =
      (if status = 500 then ErrKind.server
       else if status = 401 then ErrKind.authentication
       else if status = 403 then ErrKind.forbidden
       else if status = 400 then
         (if login then ErrKind.authentication else ErrKind.badRequest)
       else ErrKind.unhandledKeyError) := by
  unfold check_request_status
  split_ifs <;> rfl

/-- A device-authorization response fixture. -/
def fxDeviceAuth : DeviceAuthResponse :=
  { httpStatus := 200
    contentTypeJson := true
    userCode := "ABC123"
    verificationUri := "https://login.tado.com/oauth2/device"
    expiresIn := 300
    interval := 5
    deviceCode := "DEV1" }

/-- A successful poll response fixture. -/
def fxPoll : PollResponse :=
  { httpStatus := 200
    errorField := none
    contentTypeJson := true
    tokens := fxTokens
    reason := "OK" }

/-- C6: starting the device flow from PENDING or COMPLETED raises the
state error before any network call, and a poll iteration invoked past
`expires_at` raises the timeout error with zero network calls, whatever
the server would have answered. -/
theorem device_flow_state_machine (st : DeviceActivationStatus) (now : ℚ)
    (dresp : DeviceAuthResponse) (e : ℚ) (presp : PollResponse) :
    (st = DeviceActivationStatus.PENDING ∨ st = DeviceActivationStatus.COMPLETED →
      login_device_flow st now dresp =
        (Except.error (TadoErr.tadoError
          "Device activation already in progress or completed"), 0)) ∧
    (now > e →
      check_device_activation (some e) now presp =
        (Except.error (TadoErr.tadoError "User took too long to enter key"), 0)) := by
  constructor
  · rintro (rfl | rfl) <;> rfl
  · intro hpast
    unfold check_device_activation
    dsimp only
    rw [if_pos hpast]

/-- Witness for C6: starting from PENDING raises the state error, and a
poll at t = 20 of a flow that expired at t = 10 raises the timeout error
without touching the network. -/
theorem device_flow_state_machine_witness :
    login_device_flow DeviceActivationStatus.PENDING 0 fxDeviceAuth =
      (Except.error (TadoErr.tadoError
        "Device activation already in progress or completed"), 0) ∧
    check_device_activation (some 10) 20 fxPoll =
      (Except.error (TadoErr.tadoError "User took too long to enter key"), 0) := by
  obtain ⟨hstart, hpoll⟩ :=
    device_flow_state_machine DeviceActivationStatus.PENDING 0 fxDeviceAuth 10 fxPoll
  refine ⟨hstart (Or.inl rfl), ?_⟩
  have := device_flow_state_machine DeviceActivationStatus.PENDING 20 fxDeviceAuth 10 fxPoll
  exact this.2 (by norm_num)

/-- A v3 device advertising the inside-temperature capability. -/
def fxDeviceV3 : DeviceV3 :=
  { deviceType := "VA01"
    serialNo := "VA123"
    shortSerialNo := "VA123"
    currentFwVersion := "54.20"
    connectionState := { value := true, timestamp := "2024-01-01T00:00:00Z" }
    characteristics := { capabilities := ["INSIDE_TEMPERATURE_MEASUREMENT"] }
    batteryState := some "NORMAL" }

/-- A v3 device without the inside-temperature capability. -/
def fxDeviceV3NoCap : DeviceV3 :=
  { fxDeviceV3 with characteristics := { capabilities := ["IDENTIFY"] } }

/-- A temperature-offset fixture. -/
def fxOffset : TemperatureOffset := { celsius := -1/2, fahrenheit := -9/10 }

/-- An offset fetch that always succeeds. -/
def fxFetchOk : String → Except TadoErr TemperatureOffset :=
  fun _ => Except.ok fxOffset

/-- An offset fetch that always fails with a Tado error. -/
def fxFetchErr : String → Except TadoErr TemperatureOffset :=
  fun _ => Except.error (TadoErr.tadoError "Error 500 connecting to Tado.")

/-- An offset fetch failing with the bare `KeyError` that
`check_request_status` produces for the unmapped HTTP status 404. -/
def fxFetch404 : String → Except TadoErr TemperatureOffset :=
  fun _ => Except.error (TadoErr.keyError 404)

/-- C7 counterexample: a capable v3 device whose offset fetch fails
with the `KeyError` raised by `check_request_status` on a 404 makes
`get_unified_devices` raise to the caller — the `except TadoError` of
line 558 does not catch it — refuting "a failing offset fetch yields
temperature_offset == null with no error raised to the caller". -/
theorem unified_v3_offset_keyerror_escapes :
    INSIDE_TEMPERATURE_MEASUREMENT ∈ fxDeviceV3.characteristics.capabilities ∧
      fxFetch404 fxDeviceV3.serialNo = Except.error (TadoErr.keyError 404) ∧
      get_unified_devices_v3 [fxDeviceV3] fxFetch404 =
        Except.error (TadoErr.keyError 404) :=
  ⟨by decide, rfl, rfl⟩

/-- C7 (amended): in the v3 branch of `get_unified_devices`, a device
with the `INSIDE_TEMPERATURE_MEASUREMENT` capability triggers exactly
one offset fetch.  A successful fetch lands verbatim in
`temperature_offset`; a fetch failing with a `TadoError` (any class of
the library's hierarchy) is swallowed, leaving `temperature_offset =
None` with no error to the caller; a fetch failing with a non-Tado
exception (such as `KeyError`) propagates out of the call.  A device
without the capability never triggers the fetch. -/
theorem unified_v3_offset (d : DeviceV3)
    (fetch : String → Except TadoErr TemperatureOffset) :
    (∀ o, INSIDE_TEMPERATURE_MEASUREMENT ∈ d.characteristics.capabilities →
      fetch d.serialNo = Except.ok o →
      unify_v3_device d fetch =
          (Except.ok (UnifiedDevice.from_v3 d (some o)), 1) ∧
        (UnifiedDevice.from_v3 d (some o)).temperatureOffset = some o.celsius) ∧
    (∀ err, INSIDE_TEMPERATURE_MEASUREMENT ∈ d.characteristics.capabilities →
      fetch d.serialNo = Except.error err → isTadoError err = true →
      unify_v3_device d fetch =
          (Except.ok (UnifiedDevice.from_v3 d none), 1) ∧
        (UnifiedDevice.from_v3 d none).temperatureOffset = none ∧
        get_unified_devices_v3 [d] fetch =
          Except.ok [UnifiedDevice.from_v3 d none]) ∧
    (∀ err, INSIDE_TEMPERATURE_MEASUREMENT ∈ d.characteristics.capabilities →
      fetch d.serialNo = Except.error err → isTadoError err = false →
      get_unified_devices_v3 [d] fetch = Except.error err) ∧
    (INSIDE_TEMPERATURE_MEASUREMENT ∉ d.characteristics.capabilities →
      (unify_v3_device d fetch).2 = 0) := by
  refine ⟨?_, ?_, ?_, ?_⟩
  · intro o hcap hfet
    refine ⟨?_, rfl⟩
    unfold unify_v3_device
    rw [if_pos hcap, hfet]
  · intro err hcap hfet htado
    have h1 : unify_v3_device d fetch =
        (Except.ok (UnifiedDevice.from_v3 d none), 1) := by
      unfold unify_v3_device
      rw [if_pos hcap, hfet]
      dsimp only
      simp [htado]
    refine ⟨h1, rfl, ?_⟩
    simp [get_unified_devices_v3, unify_v3_loop, h1]
  · intro err hcap hfet htado
    have h1 : unify_v3_device d fetch = (Except.error err, 1) := by
      unfold unify_v3_device
      rw [if_pos hcap, hfet]
      dsimp only
      simp [htado]
    simp [get_unified_devices_v3, unify_v3_loop, h1]
  · intro hcap
    unfold unify_v3_device
    rw [if_neg hcap]

/-- Witness for C7: the capable fixture device yields offset -0.5 °C on
a successful fetch with one call; a fetch failing with a `TadoError`
leaves no offset yet a successful (non-raising) device list; a fetch
failing with `KeyError` propagates; the incapable fixture performs zero
fetch calls. -/
theorem unified_v3_offset_witness :
    unify_v3_device fxDeviceV3 fxFetchOk =
      (Except.ok (UnifiedDevice.from_v3 fxDeviceV3 (some fxOffset)), 1) ∧
    (UnifiedDevice.from_v3 fxDeviceV3 (some fxOffset)).temperatureOffset =
      some fxOffset.celsius ∧
    (UnifiedDevice.from_v3 fxDeviceV3 none).temperatureOffset = none ∧
    get_unified_devices_v3 [fxDeviceV3] fxFetchErr =
      Except.ok [UnifiedDevice.from_v3 fxDeviceV3 none] ∧
    get_unified_devices_v3 [fxDeviceV3] fxFetch404 =
      Except.error (TadoErr.keyError 404) ∧
    (unify_v3_device fxDeviceV3NoCap fxFetchOk).2 = 0 := by
  obtain ⟨hok, -, -, -⟩ := unified_v3_offset fxDeviceV3 fxFetchOk
  obtain ⟨-, herr, -, -⟩ := unified_v3_offset fxDeviceV3 fxFetchErr
  obtain ⟨-, -, hkey, -⟩ := unified_v3_offset fxDeviceV3 fxFetch404
  obtain ⟨-, -, -, hnocap⟩ := unified_v3_offset fxDeviceV3NoCap fxFetchOk
  obtain ⟨h1, h2⟩ := hok fxOffset (by decide) rfl
  obtain ⟨-, h3, h4⟩ :=
    herr (TadoErr.tadoError "Error 500 connecting to Tado.") (by decide) rfl rfl
  exact ⟨h1, h2, h3, h4,
    hkey (TadoErr.keyError 404) (by decide) rfl rfl, hnocap (by decide)⟩

/-- C10: `Device.from_x` never populates `temperature_offset`: the
unified record keeps the default `None` for every X-line device, even
one whose embedded `temperature_offset` field carries a value. -/
theorem from_x_offset_always_none (d : DeviceX) :
    (UnifiedDevice.from_x d).temperatureOffset = none := rfl

end Tado
